import Mathlib

/-!
Verification development for the "Hand Prop Placer" Blender add-on
(`hand_prop_placer.py`).  The add-on registers a settings record
(`HandPropPlacerProperties`), one operator (`HANDPROP_OT_place_prop`) with an
enablement predicate `poll` and a body `execute`, and a UI panel.  The panel
is pure UI glue; the verifiable behaviour lives in `poll` and `execute`, which
we embed shallowly below: host scene objects become a `Scene` record, the
settings become a `Props` record, matrices become a rotation-plus-translation
pair over `ℝ`, and the operator body becomes a pure state transformer.
-/

namespace HandPropPlacer

/-- A 4×4 homogeneous transform as mathutils stores it for object and bone
matrices: a 3×3 linear block `lin` and a translation column `transl` (the
bottom row is fixed at `0 0 0 1` and carries no information). -/
structure Mat4 where
  lin : Matrix (Fin 3) (Fin 3) ℝ
  transl : Fin 3 → ℝ

/-- Matrix product `A @ B` of two homogeneous transforms (mathutils `@` on
4×4 matrices restricted to the affine block form). -/
def Mat4.mul (A B : Mat4) : Mat4 :=
  { lin := A.lin * B.lin, transl := A.lin.mulVec B.transl + A.transl }

/-- Embeds a pure rotation 3×3 matrix as a 4×4 transform; models mathutils
`Matrix.to_4x4()` on a 3×3 rotation matrix (translation zero). -/
def Mat4.ofLin (m : Matrix (Fin 3) (Fin 3) ℝ) : Mat4 :=
  { lin := m, transl := 0 }

/-- Models `M.to_quaternion() @ v` from mathutils (line 98 of the source):
`to_quaternion` extracts the rotation of the 3×3 block and `@` applies it to
the vector.  For the rigid matrices a pose bone reports (orthonormal 3×3
block) the quaternion round-trip is exact, so the application equals
multiplying `v` by the 3×3 block, which is how we model it. -/
def Mat4.rotApply (A : Mat4) (v : Fin 3 → ℝ) : Fin 3 → ℝ :=
  A.lin.mulVec v

/-- Degrees to radians, modelling `math.radians`. -/
noncomputable def radians (d : ℝ) : ℝ := d * (Real.pi / 180)

/-- Rotation about the X axis (column-vector convention). -/
noncomputable def rotX (t : ℝ) : Matrix (Fin 3) (Fin 3) ℝ :=
  !![1, 0, 0; 0, Real.cos t, -Real.sin t; 0, Real.sin t, Real.cos t]

/-- Rotation about the Y axis (column-vector convention). -/
noncomputable def rotY (t : ℝ) : Matrix (Fin 3) (Fin 3) ℝ :=
  !![Real.cos t, 0, Real.sin t; 0, 1, 0; -Real.sin t, 0, Real.cos t]

/-- Rotation about the Z axis (column-vector convention). -/
noncomputable def rotZ (t : ℝ) : Matrix (Fin 3) (Fin 3) ℝ :=
  !![Real.cos t, -Real.sin t, 0; Real.sin t, Real.cos t, 0; 0, 0, 1]

/-- The rotation matrix mathutils builds from `Euler((x, y, z), 'XYZ')` via
`to_quaternion().to_matrix()` (lines 100-105 of the source): the X rotation is
applied first, then Y, then Z, so the matrix acting on column vectors is
`Rz · Ry · Rx` (Blender `eul_to_mat3` with default XYZ order; the quaternion
round-trip is the identity on rotations). -/
noncomputable def eulerXYZToMat (x y z : ℝ) : Matrix (Fin 3) (Fin 3) ℝ :=
  rotZ z * rotY y * rotX x

lemma rotX_zero : rotX 0 = 1 := by
  simp [rotX, Matrix.one_fin_three]

lemma rotY_zero : rotY 0 = 1 := by
  simp [rotY, Matrix.one_fin_three]

lemma rotZ_zero : rotZ 0 = 1 := by
  simp [rotZ, Matrix.one_fin_three]

lemma eulerXYZToMat_zero : eulerXYZToMat 0 0 0 = 1 := by
  rw [eulerXYZToMat, rotX_zero, rotY_zero, rotZ_zero, mul_one, mul_one]

lemma radians_zero : radians 0 = 0 := by
  simp [radians]

lemma Mat4.mul_ofLin_one (A : Mat4) : Mat4.mul A (Mat4.ofLin 1) = A := by
  cases A with
  | mk l t => simp [Mat4.mul, Mat4.ofLin]

lemma vec3_zero_eq : (![0, 0, 0] : Fin 3 → ℝ) = 0 := by
  funext i
  fin_cases i <;> rfl

lemma Mat4.rotApply_zero (A : Mat4) : A.rotApply 0 = 0 := by
  simp [Mat4.rotApply]

/-- One entry of an object's constraint stack.  `ctype` is the constraint type
string (`'CHILD_OF'` for the bone-following constraint the add-on manages),
`target` and `subtarget` are what lines 117-118 of the source assign, and
`inverseSet` records whether the host successfully stored the inverse-offset
matrix for the constraint (`constraint.childof_set_inverse`). -/
structure Constraint where
  ctype : String
  target : Option Nat
  subtarget : String
  inverseSet : Bool
deriving DecidableEq

/-- A host scene object: its type string (`'ARMATURE'`, `'MESH'`, ...), scale,
world matrix, constraint stack, and — when the object is an armature — its
data bones (the names `poll` checks membership in) and its pose bones (the
name-to-matrix lookup `execute` performs via `pose.bones.get`).  The two bone
collections are host-managed and modelled independently, exactly as the code
reads them. -/
structure Obj where
  otype : String
  scale : Fin 3 → ℝ
  matrix_world : Mat4
  constraints : List Constraint
  dataBones : List String
  poseBones : String → Option Mat4

/-- The host scene state the operator reads and mutates: the objects (indexed
by identity), the selection list and active object of the view layer, and the
host oracle `inverseOk` saying whether `bpy.ops.constraint.childof_set_inverse`
succeeds or raises a `RuntimeError` on this scene. -/
structure Scene where
  objs : Nat → Obj
  selected : List Nat
  active : Option Nat
  inverseOk : Bool

/-- The `hand_side` enum of `HandPropPlacerProperties` (RIGHT / LEFT). -/
inductive HandSide where
  | RIGHT
  | LEFT
deriving DecidableEq

/-- The `HandPropPlacerProperties` settings record.  Pointer properties are
`Option Nat` (object identity or unset); the float properties are reals. -/
structure Props where
  armature_obj : Option Nat
  target_hand_bone_name : String
  prop_obj : Option Nat
  hand_side : HandSide
  offset_x : ℝ
  offset_y : ℝ
  offset_z : ℝ
  rotate_x : ℝ
  rotate_y : ℝ
  rotate_z : ℝ
  parent_prop : Bool
  apply_prop_scale : Bool

/-- Operator return status: `{'FINISHED'}` or `{'CANCELLED'}`. -/
inductive Status where
  | FINISHED
  | CANCELLED
deriving DecidableEq

/-- Report level passed to `self.report` (lines 81, 127, 129). -/
inductive RLevel where
  | INFO
  | WARNING
  | ERROR
deriving DecidableEq

/-- The predicate `HANDPROP_OT_place_prop.poll` (source lines 62-71): the armature pointer
is set (truthy) and of armature type, the prop pointer is set and differs from
the armature, and the bone name occurs in the armature's data bones. -/
def poll (s : Scene) (p : Props) : Bool :=
  match p.armature_obj with
  | none => false
  | some a =>
    ((s.objs a).otype == "ARMATURE") &&
      (match p.prop_obj with
       | none => false
       | some pr =>
         (pr != a) && decide (p.target_hand_bone_name ∈ (s.objs a).dataBones))

/-- The CHILD_OF-removal loops of `execute` (lines 112-114 and 132-134):
`for c in prop_obj.constraints: if c.type == 'CHILD_OF':
prop_obj.constraints.remove(c)`.  Python iterates the collection by index;
`remove` shifts the remaining entries left while the iterator's index has
already advanced, so the entry directly after each removed one is never
examined.  Structurally: a removed CHILD_OF head causes the next entry to be
kept unexamined. -/
def removeChildOfPass : List Constraint → List Constraint
  | [] => []
  | c :: rest =>
    if c.ctype = "CHILD_OF" then
      match rest with
      | [] => []
      | d :: rest2 => d :: removeChildOfPass rest2
    else
      c :: removeChildOfPass rest

/-- Marks the inverse-offset of the most recently added constraint as stored:
`bpy.ops.constraint.childof_set_inverse(constraint=constraint.name)` acts on
the freshly created constraint, which sits at the end of the stack (line
126). -/
def setInverseOnLast : List Constraint → List Constraint
  | [] => []
  | [c] => [{ c with inverseSet := true }]
  | c :: d :: rest => c :: setInverseOnLast (d :: rest)

/-- Number of CHILD_OF constraints on a stack. -/
def countChildOf (cs : List Constraint) : Nat :=
  (cs.filter fun c => c.ctype == "CHILD_OF").length

/-- Applies `f` to the object with identity `i`, leaving every other object
unchanged. -/
def updateObj (s : Scene) (i : Nat) (f : Obj → Obj) : Scene :=
  { s with objs := fun j => if j = i then f (s.objs j) else s.objs j }

/-- Models `prop_obj.scale = Vector((1.0, 1.0, 1.0))` (line 89). -/
def setScale (s : Scene) (i : Nat) (v : Fin 3 → ℝ) : Scene :=
  updateObj s i fun o => { o with scale := v }

/-- Models `prop_obj.matrix_world = new_matrix` (line 108). -/
def setMatrixWorld (s : Scene) (i : Nat) (m : Mat4) : Scene :=
  updateObj s i fun o => { o with matrix_world := m }

/-- Replaces the constraint stack of object `i` by `f` of it. -/
def modifyConstraints (s : Scene) (i : Nat) (f : List Constraint → List Constraint) : Scene :=
  updateObj s i fun o => { o with constraints := f o.constraints }

/-- The body of `HANDPROP_OT_place_prop.execute` after the pose-bone lookup
succeeded (source lines 84-142).  `a` and `pr` are the armature and prop
object identities read from the settings and `boneM` is the matrix the lookup
returned.  `bpy.context.view_layer.update()` (line 120) and the mesh
`data.update()` call (lines 90-91) change no state we model. -/
noncomputable def executeBody (s : Scene) (p : Props) (a pr : Nat) (boneM : Mat4) :
    Status × Scene × List RLevel :=
  -- lines 84-85: save the selection state
  let originalActive := s.active
  let originalSelection := s.selected
  -- lines 88-91: optionally reset the prop scale to unit
  let s1 := if p.apply_prop_scale then setScale s pr (fun _ => 1) else s
  -- lines 94-98: copy the bone matrix, add the offset rotated into the
  -- bone's orientation to its translation
  let offset : Fin 3 → ℝ := ![p.offset_x, p.offset_y, p.offset_z]
  let newMatrix : Mat4 := { lin := boneM.lin, transl := boneM.transl + boneM.rotApply offset }
  -- lines 100-107: build the Euler rotation (degrees, XYZ order) and compose
  -- it on the right
  let rotationMatrix : Mat4 :=
    Mat4.ofLin (eulerXYZToMat (radians p.rotate_x) (radians p.rotate_y) (radians p.rotate_z))
  let finalMatrix := Mat4.mul newMatrix rotationMatrix
  -- line 108: assign the prop's world matrix
  let s2 := setMatrixWorld s1 pr finalMatrix
  if p.parent_prop then
    -- lines 112-114: remove existing CHILD_OF constraints (iterating loop)
    let s3 := modifyConstraints s2 pr removeChildOfPass
    -- lines 116-118: create the new constraint targeting the bone
    let newC : Constraint :=
      { ctype := "CHILD_OF", target := some a,
        subtarget := p.target_hand_bone_name, inverseSet := false }
    let s4 := modifyConstraints s3 pr fun cs => cs ++ [newC]
    -- lines 122-129: the try block deselects everything, selects the prop and
    -- makes it active, then asks the host for the constraint inverse, which
    -- either succeeds (INFO) or raises a RuntimeError that is caught (WARNING)
    let s5 := { s4 with selected := [pr], active := some pr }
    let afterTry :=
      if s.inverseOk then
        (modifyConstraints s5 pr setInverseOnLast, [RLevel.INFO])
      else
        (s5, [RLevel.WARNING])
    -- lines 137-140: restore the saved selection and active object
    let s6 := { afterTry.1 with selected := originalSelection, active := originalActive }
    (Status.FINISHED, s6, afterTry.2)
  else
    -- lines 132-134: remove existing CHILD_OF constraints (iterating loop)
    let s3 := modifyConstraints s2 pr removeChildOfPass
    -- lines 137-140: restore the saved selection and active object
    let s6 := { s3 with selected := originalSelection, active := originalActive }
    (Status.FINISHED, s6, [])

/-- The operator body `HANDPROP_OT_place_prop.execute` (source lines 73-142).  Returns `none`
when the settings leave the armature or prop pointer unset — the Python body
would then fault on an attribute access instead of returning a status (those
configurations are gated off by `poll`).  The pose-bone lookup (line 79)
happens before the prop object is ever touched, so a failed lookup reports an
ERROR and returns CANCELLED with the scene unchanged even if the prop pointer
is unset. -/
noncomputable def execute (s : Scene) (p : Props) : Option (Status × Scene × List RLevel) :=
  match p.armature_obj with
  | none => none
  | some a =>
    match (s.objs a).poseBones p.target_hand_bone_name with
    | none => some (Status.CANCELLED, s, [RLevel.ERROR])
    | some boneM =>
      match p.prop_obj with
      | none => none
      | some pr => some (executeBody s p a pr boneM)

section RunLemmas

variable {s : Scene} {p : Props} {a pr : Nat} {boneM : Mat4}

/-- When both pointers are set and the pose-bone lookup succeeds, `execute`
runs its body. -/
lemma execute_run (ha : p.armature_obj = some a) (hp : p.prop_obj = some pr)
    (hb : (s.objs a).poseBones p.target_hand_bone_name = some boneM) :
    execute s p = some (executeBody s p a pr boneM) := by
  simp only [execute, ha, hb, hp]

/-- The final world matrix `execute` assigns to the prop, in either branch of
`parent_prop` and whatever the host's inverse computation does. -/
lemma executeBody_matrix :
    ((executeBody s p a pr boneM).2.1.objs pr).matrix_world =
      Mat4.mul
        { lin := boneM.lin,
          transl := boneM.transl + boneM.rotApply ![p.offset_x, p.offset_y, p.offset_z] }
        (Mat4.ofLin (eulerXYZToMat (radians p.rotate_x) (radians p.rotate_y)
          (radians p.rotate_z))) := by
  unfold executeBody
  rcases hsc : p.apply_prop_scale <;> rcases hpar : p.parent_prop <;>
    rcases hinv : s.inverseOk <;>
      simp [hsc, hpar, hinv, modifyConstraints, setMatrixWorld, setScale, updateObj]

/-- The body of `execute` always returns FINISHED. -/
lemma executeBody_status : (executeBody s p a pr boneM).1 = Status.FINISHED := by
  unfold executeBody
  rcases hpar : p.parent_prop <;> rcases hinv : s.inverseOk <;> simp [hpar, hinv]

/-- The selection list is restored to the saved one. -/
lemma executeBody_selected : (executeBody s p a pr boneM).2.1.selected = s.selected := by
  unfold executeBody
  rcases hpar : p.parent_prop <;> rcases hinv : s.inverseOk <;> simp [hpar, hinv]

/-- The active object is restored to the saved one. -/
lemma executeBody_active : (executeBody s p a pr boneM).2.1.active = s.active := by
  unfold executeBody
  rcases hpar : p.parent_prop <;> rcases hinv : s.inverseOk <;> simp [hpar, hinv]

/-- When attachment is requested and the host's inverse computation fails, the
reports are exactly one WARNING. -/
lemma executeBody_reports_warn (hpar : p.parent_prop = true)
    (hinv : s.inverseOk = false) :
    (executeBody s p a pr boneM).2.2 = [RLevel.WARNING] := by
  unfold executeBody
  simp [hpar, hinv]

/-- When attachment is requested and the inverse computation fails, the prop's
final constraint stack is the loop-filtered old stack with the fresh CHILD_OF
constraint appended, its inverse unset. -/
lemma executeBody_constraints_warn (hpar : p.parent_prop = true)
    (hinv : s.inverseOk = false) :
    ((executeBody s p a pr boneM).2.1.objs pr).constraints =
      removeChildOfPass (s.objs pr).constraints ++
        [{ ctype := "CHILD_OF", target := some a,
           subtarget := p.target_hand_bone_name, inverseSet := false }] := by
  unfold executeBody
  rcases hsc : p.apply_prop_scale <;>
    simp [hsc, hpar, hinv, modifyConstraints, setMatrixWorld, setScale, updateObj]

end RunLemmas

/-! Concrete scenes used to instantiate the theorems below: object 0 is an
armature with a single bone `"b"` posed at the identity matrix, object 1 is
the prop (with a parameter constraint stack), every other identity is an
unrelated empty object. -/

noncomputable def idMat : Mat4 := { lin := 1, transl := 0 }

noncomputable def baseObj : Obj :=
  { otype := "EMPTY"
    scale := fun _ => 1
    matrix_world := idMat
    constraints := []
    dataBones := []
    poseBones := fun _ => none }

noncomputable def exArm : Obj :=
  { baseObj with
    otype := "ARMATURE"
    dataBones := ["b"]
    poseBones := fun n => if n = "b" then some idMat else none }

def childC : Constraint :=
  { ctype := "CHILD_OF", target := none, subtarget := "", inverseSet := false }

noncomputable def exScene (cs : List Constraint) (inv : Bool) : Scene :=
  { objs := fun i =>
      if i = 0 then exArm
      else if i = 1 then { baseObj with constraints := cs }
      else baseObj
    selected := []
    active := none
    inverseOk := inv }

noncomputable def exProps (par : Bool) : Props :=
  { armature_obj := some 0
    target_hand_bone_name := "b"
    prop_obj := some 1
    hand_side := HandSide.RIGHT
    offset_x := 0
    offset_y := 0
    offset_z := 0
    rotate_x := 0
    rotate_y := 0
    rotate_z := 0
    parent_prop := par
    apply_prop_scale := true }

noncomputable def exPropsMissing : Props :=
  { exProps true with target_hand_bone_name := "c" }

/-- Claim C3: the enablement predicate (`poll`) of the place-prop operation
returns true if and only if the armature setting is set and refers to an
object of armature type, the prop setting is set and differs from the
armature object, and the named bone exists among the armature's bones. -/
theorem C3_poll_iff (s : Scene) (p : Props) :
    poll s p = true ↔
      ∃ a, p.armature_obj = some a ∧ (s.objs a).otype = "ARMATURE" ∧
        ∃ pr, p.prop_obj = some pr ∧ pr ≠ a ∧
          p.target_hand_bone_name ∈ (s.objs a).dataBones := by
  cases hA : p.armature_obj with
  | none => simp [poll, hA]
  | some a =>
    cases hP : p.prop_obj with
    | none => simp [poll, hA, hP]
    | some pr => simp [poll, hA, hP]

/-- Claim C9: the operation body never reads the hand-side setting, so two
invocations on identical scene state whose settings differ only in the
hand-side choice return identical status, scene (prop transform, constraint
list, selection state) and reports. -/
theorem C9_hand_side_never_read (s : Scene) (p : Props) (h₁ h₂ : HandSide) :
    execute s { p with hand_side := h₁ } = execute s { p with hand_side := h₂ } := rfl

/-- Claim C6: when the named bone is not found among the armature's pose bones
at execution time, the operation reports an ERROR and returns CANCELLED with
the scene — prop transform, scale, constraints, selection, active object —
exactly as before the invocation. -/
theorem C6_missing_bone_aborts (s : Scene) (p : Props) (a : Nat)
    (ha : p.armature_obj = some a)
    (hb : (s.objs a).poseBones p.target_hand_bone_name = none) :
    execute s p = some (Status.CANCELLED, s, [RLevel.ERROR]) := by
  simp only [execute, ha, hb]

theorem C6_witness :
    ((exScene [] true).objs 0).poseBones exPropsMissing.target_hand_bone_name = none ∧
    execute (exScene [] true) exPropsMissing =
      some (Status.CANCELLED, exScene [] true, [RLevel.ERROR]) :=
  ⟨rfl, C6_missing_bone_aborts (exScene [] true) exPropsMissing 0 rfl rfl⟩

/-- Claim C8: every invocation that reaches the operation body and completes
restores the selection list and the active object to their values before the
invocation, in the attach and non-attach branches alike (the CANCELLED path
leaves the scene untouched as well). -/
theorem C8_selection_restored (s : Scene) (p : Props)
    (h : (execute s p).isSome = true) :
    (execute s p).map (fun r => (r.2.1.selected, r.2.1.active)) =
      some (s.selected, s.active) := by
  cases hA : p.armature_obj with
  | none => simp [execute, hA] at h
  | some a =>
    cases hb : (s.objs a).poseBones p.target_hand_bone_name with
    | none => simp [execute, hA, hb]
    | some m =>
      cases hP : p.prop_obj with
      | none => simp [execute, hA, hb, hP] at h
      | some pr =>
        rw [execute_run hA hP hb]
        simp [executeBody_selected, executeBody_active]

theorem C8_witness :
    (execute (exScene [] true) (exProps true)).isSome = true ∧
    (execute (exScene [] true) (exProps true)).map
        (fun r => (r.2.1.selected, r.2.1.active)) =
      some ((exScene [] true).selected, (exScene [] true).active) :=
  ⟨rfl, C8_selection_restored (exScene [] true) (exProps true) rfl⟩

/-- Claim C10: an invocation that returns a status returns CANCELLED exactly
when the pose-bone lookup by the configured name fails, and in every other
case — in particular whichever way the host's inverse computation goes —
returns FINISHED. -/
theorem C10_cancel_iff_missing_bone (s : Scene) (p : Props) (a : Nat)
    (ha : p.armature_obj = some a)
    (hs : (execute s p).isSome = true) :
    ((execute s p).map (fun r => r.1) = some Status.CANCELLED ↔
        (s.objs a).poseBones p.target_hand_bone_name = none) ∧
      ((s.objs a).poseBones p.target_hand_bone_name ≠ none →
        (execute s p).map (fun r => r.1) = some Status.FINISHED) := by
  cases hb : (s.objs a).poseBones p.target_hand_bone_name with
  | none => simp [execute, ha, hb]
  | some m =>
    cases hP : p.prop_obj with
    | none => simp [execute, ha, hb, hP] at hs
    | some pr =>
      rw [execute_run ha hP hb]
      simp [executeBody_status]

theorem C10_witness :
    exPropsMissing.armature_obj = some 0 ∧
      (execute (exScene [] true) exPropsMissing).isSome = true ∧
      (((execute (exScene [] true) exPropsMissing).map (fun r => r.1) =
            some Status.CANCELLED ↔
          ((exScene [] true).objs 0).poseBones
            exPropsMissing.target_hand_bone_name = none) ∧
        (((exScene [] true).objs 0).poseBones
            exPropsMissing.target_hand_bone_name ≠ none →
          (execute (exScene [] true) exPropsMissing).map (fun r => r.1) =
            some Status.FINISHED)) :=
  ⟨rfl, rfl, C10_cancel_iff_missing_bone (exScene [] true) exPropsMissing 0 rfl rfl⟩

/-- Claim C2: for a bone with a known matrix, invoking the operation with zero
offset vector, zero rotation angles and unit-scale requested assigns the prop
a resulting world matrix equal to the bone's matrix. -/
theorem C2_zero_settings_snap (s : Scene) (p : Props) (a pr : Nat) (boneM : Mat4)
    (ha : p.armature_obj = some a) (hp : p.prop_obj = some pr)
    (hb : (s.objs a).poseBones p.target_hand_bone_name = some boneM)
    (hox : p.offset_x = 0) (hoy : p.offset_y = 0) (hoz : p.offset_z = 0)
    (hrx : p.rotate_x = 0) (hry : p.rotate_y = 0) (hrz : p.rotate_z = 0)
    (hsc : p.apply_prop_scale = true) :
    (execute s p).map (fun r => (r.2.1.objs pr).matrix_world) = some boneM := by
  rw [execute_run ha hp hb, Option.map_some', executeBody_matrix]
  rw [hox, hoy, hoz, hrx, hry, hrz, vec3_zero_eq, Mat4.rotApply_zero, add_zero,
    radians_zero, eulerXYZToMat_zero, Mat4.mul_ofLin_one]

theorem C2_witness :
    ((exScene [] true).objs 0).poseBones (exProps true).target_hand_bone_name =
        some idMat ∧
      (execute (exScene [] true) (exProps true)).map
          (fun r => (r.2.1.objs 1).matrix_world) = some idMat :=
  ⟨rfl, C2_zero_settings_snap (exScene [] true) (exProps true) 0 1 idMat
    rfl rfl rfl rfl rfl rfl rfl rfl rfl rfl⟩

/-- Claim C4: for a nonzero offset vector the operation translates the prop by
the offset rotated into the bone's orientation — the resulting translation is
the bone matrix's translation plus the bone's rotation applied to the offset
vector, not a world-axis translation. -/
theorem C4_offset_in_bone_frame (s : Scene) (p : Props) (a pr : Nat) (boneM : Mat4)
    (ha : p.armature_obj = some a) (hp : p.prop_obj = some pr)
    (hb : (s.objs a).poseBones p.target_hand_bone_name = some boneM)
    (hnz : ![p.offset_x, p.offset_y, p.offset_z] ≠ (0 : Fin 3 → ℝ)) :
    (execute s p).map (fun r => (r.2.1.objs pr).matrix_world.transl) =
      some (boneM.transl + boneM.rotApply ![p.offset_x, p.offset_y, p.offset_z]) := by
  rw [execute_run ha hp hb, Option.map_some', executeBody_matrix]
  simp [Mat4.mul, Mat4.ofLin]

noncomputable def exPropsOffset : Props := { exProps true with offset_x := 1 }

theorem C4_witness :
    ![exPropsOffset.offset_x, exPropsOffset.offset_y, exPropsOffset.offset_z] ≠
        (0 : Fin 3 → ℝ) ∧
      (execute (exScene [] true) exPropsOffset).map
          (fun r => (r.2.1.objs 1).matrix_world.transl) =
        some (idMat.transl + idMat.rotApply
          ![exPropsOffset.offset_x, exPropsOffset.offset_y, exPropsOffset.offset_z]) := by
  have hnz : ![exPropsOffset.offset_x, exPropsOffset.offset_y, exPropsOffset.offset_z] ≠
      (0 : Fin 3 → ℝ) := by
    intro h
    have h0 := congrFun h 0
    simp [exPropsOffset, exProps] at h0
  exact ⟨hnz, C4_offset_in_bone_frame (exScene [] true) exPropsOffset 0 1 idMat
    rfl rfl rfl hnz⟩

/-- Claim C5: the prop's final matrix equals the offset-translated bone matrix
composed on the right with the rotation matrix built from the three Euler
angles interpreted as degrees, converted to radians, in XYZ order. -/
theorem C5_rotation_composed_right (s : Scene) (p : Props) (a pr : Nat) (boneM : Mat4)
    (ha : p.armature_obj = some a) (hp : p.prop_obj = some pr)
    (hb : (s.objs a).poseBones p.target_hand_bone_name = some boneM) :
    (execute s p).map (fun r => (r.2.1.objs pr).matrix_world) =
      some (Mat4.mul
        { lin := boneM.lin
          transl := boneM.transl + boneM.rotApply ![p.offset_x, p.offset_y, p.offset_z] }
        (Mat4.ofLin (eulerXYZToMat (radians p.rotate_x) (radians p.rotate_y)
          (radians p.rotate_z)))) := by
  rw [execute_run ha hp hb, Option.map_some', executeBody_matrix]

noncomputable def exPropsRot : Props :=
  { exProps true with rotate_x := 90, offset_y := 2 }

theorem C5_witness :
    ((exScene [] true).objs 0).poseBones exPropsRot.target_hand_bone_name =
        some idMat ∧
      (execute (exScene [] true) exPropsRot).map
          (fun r => (r.2.1.objs 1).matrix_world) =
        some (Mat4.mul
          { lin := idMat.lin
            transl := idMat.transl + idMat.rotApply
              ![exPropsRot.offset_x, exPropsRot.offset_y, exPropsRot.offset_z] }
          (Mat4.ofLin (eulerXYZToMat (radians exPropsRot.rotate_x)
            (radians exPropsRot.rotate_y) (radians exPropsRot.rotate_z)))) :=
  ⟨rfl, C5_rotation_composed_right (exScene [] true) exPropsRot 0 1 idMat rfl rfl rfl⟩

/-- Claim C7: with attachment requested and the host's inverse-offset
computation failing, the operation reports a WARNING yet still completes: it
returns FINISHED, the freshly created CHILD_OF constraint targeting the chosen
armature and bone stays as the last entry of the prop's stack (its inverse not
stored), and the prop's new transform stays applied. -/
theorem C7_inverse_failure_is_soft (s : Scene) (p : Props) (a pr : Nat) (boneM : Mat4)
    (ha : p.armature_obj = some a) (hp : p.prop_obj = some pr)
    (hb : (s.objs a).poseBones p.target_hand_bone_name = some boneM)
    (hpar : p.parent_prop = true) (hinv : s.inverseOk = false) :
    (execute s p).map (fun r => r.1) = some Status.FINISHED ∧
      (execute s p).map (fun r => r.2.2) = some [RLevel.WARNING] ∧
      (execute s p).map (fun r => ((r.2.1.objs pr).constraints).getLast?) =
        some (some { ctype := "CHILD_OF", target := some a,
                     subtarget := p.target_hand_bone_name, inverseSet := false }) ∧
      (execute s p).map (fun r => (r.2.1.objs pr).matrix_world) =
        some (Mat4.mul
          { lin := boneM.lin
            transl := boneM.transl + boneM.rotApply ![p.offset_x, p.offset_y, p.offset_z] }
          (Mat4.ofLin (eulerXYZToMat (radians p.rotate_x) (radians p.rotate_y)
            (radians p.rotate_z)))) := by
  rw [execute_run ha hp hb]
  refine ⟨?_, ?_, ?_, ?_⟩
  · simp [executeBody_status]
  · simp [executeBody_reports_warn hpar hinv]
  · simp [executeBody_constraints_warn hpar hinv, List.getLast?_append_cons]
  · simp [executeBody_matrix]

theorem C7_witness :
    (exScene [] false).inverseOk = false ∧
      ((execute (exScene [] false) (exProps true)).map (fun r => r.1) =
          some Status.FINISHED ∧
        (execute (exScene [] false) (exProps true)).map (fun r => r.2.2) =
          some [RLevel.WARNING] ∧
        (execute (exScene [] false) (exProps true)).map
            (fun r => ((r.2.1.objs 1).constraints).getLast?) =
          some (some { ctype := "CHILD_OF", target := some 0,
                       subtarget := (exProps true).target_hand_bone_name,
                       inverseSet := false }) ∧
        (execute (exScene [] false) (exProps true)).map
            (fun r => (r.2.1.objs 1).matrix_world) =
          some (Mat4.mul
            { lin := idMat.lin
              transl := idMat.transl + idMat.rotApply
                ![(exProps true).offset_x, (exProps true).offset_y, (exProps true).offset_z] }
            (Mat4.ofLin (eulerXYZToMat (radians (exProps true).rotate_x)
              (radians (exProps true).rotate_y) (radians (exProps true).rotate_z))))) :=
  ⟨rfl, C7_inverse_failure_is_soft (exScene [] false) (exProps true) 0 1 idMat
    rfl rfl rfl rfl rfl⟩

/-- Claim C1 states that completing the operation leaves exactly one CHILD_OF
constraint when attachment is requested and zero when it is declined,
regardless of how many existed beforehand.  The removal loops (lines 112-114
and 132-134) remove from the collection while iterating it, which skips the
entry after each removed one: starting from two adjacent CHILD_OF constraints,
declining attachment completes with one CHILD_OF constraint left and
requesting attachment completes with two. -/
theorem C1_removal_loop_skips :
    (execute (exScene [childC, childC] true) (exProps false)).map
        (fun r => countChildOf ((r.2.1.objs 1).constraints)) = some 1 ∧
      (execute (exScene [childC, childC] true) (exProps true)).map
        (fun r => countChildOf ((r.2.1.objs 1).constraints)) = some 2 := by
  constructor <;> rfl

end HandPropPlacer
